import Mathlib

/-!
Shallow embedding of the land-cover post-processing pipeline of
`4_Post_Processing_Testing_Locations.ipynb` and
`5_Post_Processing_Entire_District.ipynb` (frontiersi/LC_workshop_Mozambique).

A classification raster is a total function `Int → Int → Nat` together with
grid dimensions `h × w`; cells outside the bounds are never read by the
neighborhood operations.  The `modal` majority filter embeds
`skimage.filters.rank.modal` with `footprint=disk(2)` and `mask = (map != 0)`:
masked-out centers produce 0, the local histogram counts only in-bounds,
populated (non-zero) neighbors inside the disk footprint, and the mode is the
least value (over the uint8 bins 0..255) attaining the maximal count, exactly
as the ascending strict-greater scan of the rank-filter kernel computes it.
`binary_dilation` with `footprint=disk(5)` embeds the skimage binary dilation
(cells outside the image count as background).  Auxiliary layers that the
notebooks obtain by `average` resampling or spectral-index computation (`hand`,
building mask, MNDWI) are rational-valued grids; rasterized vector masks and
the nearest-resampled WSF layer are natural-valued grids.  Each masked
assignment `arr[cond] = v` becomes the pointwise `assign` update.
-/

namespace LC

/-- The raster grids of the notebooks: value at row `r`, column `c`. -/
abbrev RasterN := Int → Int → Nat

/-- Rational-valued auxiliary grids (hand, building mask after average
resampling, MNDWI index). -/
abbrev RasterQ := Int → Int → ℚ

/-- The class-name / pixel-value dictionary `dict_map` of both notebooks. -/
def dict_map : List (String × Nat) :=
  [("Tree crops", 11), ("Field crops", 12), ("Forest plantations", 21),
   ("Grassland", 31), ("Aquatic or regularly flooded herbaceous vegetation", 41),
   ("Water body", 44), ("Settlements", 51), ("Bare soils", 61),
   ("Mangrove", 70), ("Mecrusse", 71), ("Broadleaved (Semi-) evergreen forest", 72),
   ("Broadleaved (Semi-) deciduous forest", 74), ("Mopane", 75)]

/-- The dictionary access `dict_map[s]`. -/
def dictLookup (s : String) : Nat := (List.lookup s dict_map).getD 0

/-- The set of configured class codes (the values of `dict_map`). -/
def codeSet : List Nat := dict_map.map Prod.snd

/-- The offsets of `skimage.morphology.disk radius`: integer points at
Euclidean distance at most `radius` from the origin. -/
def diskOffsets (radius : Nat) : List (Int × Int) :=
  (List.range (2 * radius + 1)).flatMap (fun i =>
    (List.range (2 * radius + 1)).filterMap (fun j =>
      let dr : Int := (i : Int) - (radius : Int)
      let dc : Int := (j : Int) - (radius : Int)
      if dr * dr + dc * dc ≤ (radius : Int) * (radius : Int) then some (dr, dc)
      else none))

/-- Whether `(r, c)` lies inside an `h × w` grid. -/
def inBounds (h w : Nat) (r c : Int) : Bool :=
  decide (0 ≤ r) && decide (r < (h : Int)) && decide (0 ≤ c) && decide (c < (w : Int))

/-- The local histogram population at `(r, c)`: the values of the in-bounds,
populated (non-zero) cells inside the `disk 2` footprint centered at `(r, c)`,
as the rank filter's mask semantics collects them. -/
def neighborhoodVals (h w : Nat) (g : RasterN) (r c : Int) : List Nat :=
  (diskOffsets 2).filterMap (fun d =>
    if inBounds h w (r + d.1) (c + d.2) && g (r + d.1) (c + d.2) != 0 then
      some (g (r + d.1) (c + d.2))
    else none)

/-- The mode of a value list, computed as the rank-filter kernel does over the
uint8 bins: scan bins 0..255 in ascending order keeping the first bin whose
count strictly exceeds the running maximum, starting from bin 0. -/
def leastMode (l : List Nat) : Nat :=
  (List.range 256).foldl (fun best i => if l.count best < l.count i then i else best) 0

/-- The call `skimage.filters.rank.modal(g, footprint=disk(2), mask=(g != 0))`:
masked-out centers (value 0) yield 0; populated centers yield the mode of the
populated in-bounds disk-2 neighborhood. -/
def modal (h w : Nat) (g : RasterN) : RasterN :=
  fun r c => if g r c = 0 then 0 else leastMode (neighborhoodVals h w g r c)

/-- The call `skimage.morphology.binary_dilation(m, footprint=disk(5))`: a cell
is set iff some in-bounds cell of the disk-5 neighborhood is set. -/
def binary_dilation (h w : Nat) (m : Int → Int → Bool) : Int → Int → Bool :=
  fun r c => (diskOffsets 5).any (fun d =>
    inBounds h w (r + d.1) (c + d.2) && m (r + d.1) (c + d.2))

/-- The numpy masked assignment `arr[cond] = v`, pointwise. -/
def assign (cond : Int → Int → Bool) (v : Nat) (g : RasterN) : RasterN :=
  fun r c => if cond r c then v else g r c

/-- The input bundle of one pipeline run: the predicted land-cover raster
`np_lc_map` with its grid shape, and the auxiliary layers already resampled
onto its geobox: `np_hand`, the rasterized river mask, `np_MNDWI`, the Google
buildings mask, the WSF2019 layer, the rasterized buffered road mask, and the
rasterized buffered 2021 shoreline mask. -/
structure Inputs where
  h : Nat
  w : Nat
  lc : RasterN
  hand : RasterQ
  river : RasterN
  mndwi : RasterQ
  build : RasterQ
  wsf : RasterN
  road : RasterN
  shore : RasterN

/-- Step 1 of every path: `modal(np_lc_map, footprint=disk(2), mask=np_lc_map!=0)`. -/
def step1 (I : Inputs) : RasterN := modal I.h I.w I.lc

/-- The water-by-hydrology condition
`((np_lc_map==dict_map['Water body'])&(np_hand<=45))|(np_river_network_mask==1)`. -/
def waterHydroCond (I : Inputs) (r c : Int) : Bool :=
  (I.lc r c == dictLookup "Water body" && decide (I.hand r c ≤ 45))
    || I.river r c == 1

/-- Step 2 of every path: the hydrology rule writing `dict_map['Water body']`. -/
def step2 (I : Inputs) : RasterN :=
  assign (waterHydroCond I) (dictLookup "Water body") (step1 I)

/-- Step 3 of every path: `np_lc_map_postproc[np_MNDWI>=0]=dict_map['Water body']`. -/
def step3 (I : Inputs) : RasterN :=
  assign (fun r c => decide (0 ≤ I.mndwi r c)) (dictLookup "Water body") (step2 I)

/-- The mask `binary_dilation(np_lc_map==dict_map['Settlements'], footprint=disk(5))`,
seeded from the original (pre-filter) raster. -/
def urban_buffered (I : Inputs) : Int → Int → Bool :=
  binary_dilation I.h I.w (fun r c => I.lc r c == dictLookup "Settlements")

/-- Notebook 4, step-by-step cells, settlement-by-footprint rule:
`np_lc_map_postproc[(np_google_buildings_mask==1)|(np_wsf2019==255)]=dict_map['Settlements']`. -/
def step4_loc (I : Inputs) : RasterN :=
  assign (fun r c => decide (I.build r c = 1) || I.wsf r c == 255)
    (dictLookup "Settlements") (step3 I)

/-- Notebook 4, step-by-step cells, settlement-by-road rule:
`np_lc_map_postproc[np_road_network_mask==1]=dict_map['Settlements']`. -/
def step5_loc (I : Inputs) : RasterN :=
  assign (fun r c => I.road r c == 1) (dictLookup "Settlements") (step4_loc I)

/-- Notebook 4, step-by-step cells, flooded-vegetation-near-settlement rule:
`np_lc_map_postproc[(urban_buffered==1)&(np_lc_map==dict_map['Aquatic or regularly flooded herbaceous vegetation'])]=dict_map['Field crops']`. -/
def step6_loc (I : Inputs) : RasterN :=
  assign (fun r c => urban_buffered I r c
      && I.lc r c == dictLookup "Aquatic or regularly flooded herbaceous vegetation")
    (dictLookup "Field crops") (step5_loc I)

/-- Notebook 4, step-by-step cells, mangrove-by-coastline rule:
`np_lc_map_postproc[(np_shorelines_2021_mask==0)&(np_lc_map==dict_map['Mangrove'])]=dict_map['Forest plantations']`. -/
def step7_loc (I : Inputs) : RasterN :=
  assign (fun r c => I.shore r c == 0 && I.lc r c == dictLookup "Mangrove")
    (dictLookup "Forest plantations") (step6_loc I)

/-- The full step-by-step per-location pipeline of notebook 4 (cells 17-36). -/
def stepwisePipeline (I : Inputs) : RasterN := step7_loc I

/-- Notebook 4, process-all-locations loop, settlement-by-footprint rule:
`np_lc_map_postproc[(np_google_buildings_mask==1)|(np_wsf2019==1)]=dict_map['Settlements']`. -/
def step4_batch (I : Inputs) : RasterN :=
  assign (fun r c => decide (I.build r c = 1) || I.wsf r c == 1)
    (dictLookup "Settlements") (step3 I)

/-- Notebook 4, process-all-locations loop: the flooded-vegetation rule comes
right after the footprint rule. -/
def step5_batch (I : Inputs) : RasterN :=
  assign (fun r c => urban_buffered I r c
      && I.lc r c == dictLookup "Aquatic or regularly flooded herbaceous vegetation")
    (dictLookup "Field crops") (step4_batch I)

/-- Notebook 4, process-all-locations loop: the road rule comes after the
flooded-vegetation rule. -/
def step6_batch (I : Inputs) : RasterN :=
  assign (fun r c => I.road r c == 1) (dictLookup "Settlements") (step5_batch I)

/-- Notebook 4, process-all-locations loop, mangrove-by-coastline rule (last). -/
def step7_batch (I : Inputs) : RasterN :=
  assign (fun r c => I.shore r c == 0 && I.lc r c == dictLookup "Mangrove")
    (dictLookup "Forest plantations") (step6_batch I)

/-- The per-location pipeline of notebook 4's process-all-locations loop (cell 40). -/
def batchPipeline (I : Inputs) : RasterN := step7_batch I

/-- Notebook 5, entire-district cell: footprint rule with `np_wsf2019==1`. -/
def d_step4 (I : Inputs) : RasterN :=
  assign (fun r c => decide (I.build r c = 1) || I.wsf r c == 1)
    (dictLookup "Settlements") (step3 I)

/-- Notebook 5, entire-district cell: flooded-vegetation rule after footprint. -/
def d_step5 (I : Inputs) : RasterN :=
  assign (fun r c => urban_buffered I r c
      && I.lc r c == dictLookup "Aquatic or regularly flooded herbaceous vegetation")
    (dictLookup "Field crops") (d_step4 I)

/-- Notebook 5, entire-district cell: road rule after flooded-vegetation. -/
def d_step6 (I : Inputs) : RasterN :=
  assign (fun r c => I.road r c == 1) (dictLookup "Settlements") (d_step5 I)

/-- Notebook 5, entire-district cell: mangrove rule last. -/
def d_step7 (I : Inputs) : RasterN :=
  assign (fun r c => I.shore r c == 0 && I.lc r c == dictLookup "Mangrove")
    (dictLookup "Forest plantations") (d_step6 I)

/-- The entire-district pipeline of notebook 5 (cell 18). -/
def districtPipeline (I : Inputs) : RasterN := d_step7 I

/-- A road feature of the OSM road layer: its `surface` attribute, and the set
of cells its 10 m-buffered geometry rasterizes onto (the buffering and
rasterization themselves are opaque library calls). -/
structure Road where
  surface : String
  covers : Int → Int → Bool

/-- The fixed surface-attribute allow-list of the road-selection cell
`road_network.loc[road_network['surface'].isin([...])]`. -/
def surface_allowlist : List String :=
  ["asphalt", "paved", "compacted", "cobblestone", "concrete", "metal",
   "paving_stones", "paving_stones:30"]

/-- The attribute selection applied to the road layer before buffering. -/
def selectRoads (roads : List Road) : List Road :=
  roads.filter (fun rd => surface_allowlist.contains rd.surface)

/-- The rasterized road-network mask built from the selected, buffered roads:
1 on cells some selected road covers, 0 elsewhere. -/
def roadNetworkMask (roads : List Road) : RasterN :=
  fun r c => if (selectRoads roads).any (fun rd => rd.covers r c) then 1 else 0

/-- The step-by-step pipeline with its last two rules swapped: the mangrove
rule applied before the flooded-vegetation rule (first swapped step). -/
def step6_swap (I : Inputs) : RasterN :=
  assign (fun r c => I.shore r c == 0 && I.lc r c == dictLookup "Mangrove")
    (dictLookup "Forest plantations") (step5_loc I)

/-- The step-by-step pipeline with its last two rules swapped: the
flooded-vegetation rule applied last (second swapped step). -/
def step7_swap (I : Inputs) : RasterN :=
  assign (fun r c => urban_buffered I r c
      && I.lc r c == dictLookup "Aquatic or regularly flooded herbaceous vegetation")
    (dictLookup "Field crops") (step6_swap I)

/-- The step-by-step pipeline with Steps 6 and 7 interchanged. -/
def swappedPipeline (I : Inputs) : RasterN := step7_swap I

/-- A cell value is valid when it is the no-data sentinel or a configured code. -/
def validCell (v : Nat) : Prop := v = 0 ∨ v ∈ codeSet

/-- The bin-scan step of the rank-filter mode kernel. -/
def modeStep (l : List Nat) : Nat → Nat → Nat :=
  fun best i => if l.count best < l.count i then i else best

theorem leastMode_eq_foldl (l : List Nat) :
    leastMode l = (List.range 256).foldl (modeStep l) 0 := rfl

theorem modeStep_foldl_fixed (l : List Nat) (v : Nat)
    (hall : ∀ u, u ≠ v → l.count u = 0) :
    ∀ bins : List Nat, (List.foldl (modeStep l) v bins) = v := by
  intro bins
  induction bins with
  | nil => rfl
  | cons i bins ih =>
      have hstep : modeStep l v i = v := by
        unfold modeStep
        by_cases hiv : i = v
        · simp [hiv]
        · have hc : l.count i = 0 := hall i hiv
          simp [hc]
      rw [List.foldl_cons, hstep]
      exact ih

theorem modeStep_foldl_finds (l : List Nat) (v : Nat)
    (hall : ∀ u, u ≠ v → l.count u = 0) (hv : 0 < l.count v) :
    ∀ bins : List Nat, ∀ b : Nat, l.count b = 0 → v ∈ bins →
      (List.foldl (modeStep l) b bins) = v := by
  intro bins
  induction bins with
  | nil => intro b _ hmem; exact absurd hmem (List.not_mem_nil v)
  | cons i bins ih =>
      intro b hb hmem
      by_cases hiv : i = v
      · have hstep : modeStep l b i = v := by
          unfold modeStep
          rw [hiv, hb]
          simp [hv]
        rw [List.foldl_cons, hstep]
        exact modeStep_foldl_fixed l v hall bins
      · have hi : l.count i = 0 := hall i hiv
        have hstep : modeStep l b i = b := by
          unfold modeStep
          simp [hb, hi]
        have hmem2 : v ∈ bins := by
          rcases List.mem_cons.mp hmem with h | h
          · exact absurd h.symm hiv
          · exact h
        rw [List.foldl_cons, hstep]
        exact ih b hb hmem2

/-- If every value of the list equals `v ≠ 0` with `v < 256` and the list is
nonempty, the rank-filter mode scan returns `v`. -/
theorem leastMode_uniform (l : List Nat) (v : Nat) (hv0 : v ≠ 0) (hv256 : v < 256)
    (hmem : v ∈ l) (huni : ∀ u ∈ l, u = v) : leastMode l = v := by
  have hall : ∀ u, u ≠ v → l.count u = 0 := by
    intro u huv
    rw [List.count_eq_zero]
    intro hu
    exact huv (huni u hu)
  have hv : 0 < l.count v := List.count_pos_iff.mpr hmem
  have h0 : l.count 0 = 0 := hall 0 (Ne.symm hv0)
  have hbins : v ∈ List.range 256 := List.mem_range.mpr hv256
  exact modeStep_foldl_finds l v hall hv (List.range 256) 0 h0 hbins

theorem modeStep_foldl_mem (l : List Nat) :
    ∀ bins : List Nat, ∀ b : Nat,
      (List.foldl (modeStep l) b bins) = b ∨ 0 < l.count (List.foldl (modeStep l) b bins) := by
  intro bins
  induction bins with
  | nil => intro b; exact Or.inl rfl
  | cons i bins ih =>
      intro b
      rw [List.foldl_cons]
      by_cases hlt : l.count b < l.count i
      · have hstep : modeStep l b i = i := by unfold modeStep; simp [hlt]
        have hpos : 0 < l.count i := lt_of_le_of_lt (Nat.zero_le _) hlt
        rw [hstep]
        rcases ih i with h | h
        · exact Or.inr (by rw [h]; exact hpos)
        · exact Or.inr h
      · have hstep : modeStep l b i = b := by unfold modeStep; simp [hlt]
        rw [hstep]
        exact ih b

/-- The mode scan returns its initial bin 0 or a value present in the list. -/
theorem leastMode_mem_or_zero (l : List Nat) : leastMode l = 0 ∨ leastMode l ∈ l := by
  rcases modeStep_foldl_mem l (List.range 256) 0 with h | h
  · exact Or.inl h
  · exact Or.inr (List.count_pos_iff.mp h)

/-- Values of the local histogram come from populated cells of the raster. -/
theorem neighborhoodVals_sub (h w : Nat) (g : RasterN) (r c : Int) :
    ∀ v ∈ neighborhoodVals h w g r c, v ≠ 0 ∧ ∃ r2 c2, g r2 c2 = v := by
  intro v hv
  unfold neighborhoodVals at hv
  rcases List.mem_filterMap.mp hv with ⟨d, _, hd⟩
  by_cases hcond : (inBounds h w (r + d.1) (c + d.2) && g (r + d.1) (c + d.2) != 0) = true
  · rw [if_pos hcond] at hd
    have hval : g (r + d.1) (c + d.2) = v := Option.some.inj hd
    have hnz : (g (r + d.1) (c + d.2) != 0) = true := by
      simp only [Bool.and_eq_true] at hcond
      exact hcond.2
    refine ⟨?_, r + d.1, c + d.2, hval⟩
    rw [← hval]
    simpa using hnz
  · rw [if_neg hcond] at hd
    exact absurd hd (Option.noConfusion)

theorem dict_water : dictLookup "Water body" = 44 := by decide

theorem dict_settlements : dictLookup "Settlements" = 51 := by decide

theorem dict_flooded :
    dictLookup "Aquatic or regularly flooded herbaceous vegetation" = 41 := by decide

theorem dict_mangrove : dictLookup "Mangrove" = 70 := by decide

theorem dict_forest : dictLookup "Forest plantations" = 21 := by decide

theorem dict_fieldcrops : dictLookup "Field crops" = 12 := by decide

theorem assign_of_true {cond : Int → Int → Bool} {v : Nat} {g : RasterN} {r c : Int}
    (h : cond r c = true) : assign cond v g r c = v := by
  unfold assign
  rw [if_pos h]

theorem assign_of_false {cond : Int → Int → Bool} {v : Nat} {g : RasterN} {r c : Int}
    (h : cond r c = false) : assign cond v g r c = g r c := by
  unfold assign
  rw [h]
  simp

/-- C5: Step 2 forces the Water-body code exactly on cells with original value
Water-body and hand ≤ 45, or river mask 1, and leaves all other cells at their
filtered value; a cell with original Water-body, hand 50 and river-mask 0 is
untouched by Step 2 but forced to Water-body by Step 3 when its MNDWI is ≥ 0. -/
theorem water_rules_characterization (I : Inputs) (r c : Int) :
    (waterHydroCond I r c = true ↔
      ((I.lc r c = dictLookup "Water body" ∧ I.hand r c ≤ 45) ∨ I.river r c = 1)) ∧
    (waterHydroCond I r c = true → step2 I r c = dictLookup "Water body") ∧
    (waterHydroCond I r c = false → step2 I r c = step1 I r c) ∧
    (I.lc r c = dictLookup "Water body" → I.hand r c = 50 → I.river r c = 0 →
      step2 I r c = step1 I r c ∧
      (0 ≤ I.mndwi r c → step3 I r c = dictLookup "Water body")) := by
  refine ⟨?_, ?_, ?_, ?_⟩
  · unfold waterHydroCond
    simp [Bool.or_eq_true, Bool.and_eq_true, beq_iff_eq, decide_eq_true_eq]
  · intro hcond
    unfold step2
    exact assign_of_true hcond
  · intro hcond
    unfold step2
    exact assign_of_false hcond
  · intro hlc hhand hriver
    have h45 : ¬ (I.hand r c ≤ 45) := by rw [hhand]; norm_num
    have hcond : waterHydroCond I r c = false := by
      unfold waterHydroCond
      rw [hriver]
      simp [h45]
    constructor
    · unfold step2
      exact assign_of_false hcond
    · intro hmn
      unfold step3
      apply assign_of_true
      simpa using hmn

/-- C6: every cell with original value Mangrove lying outside the coastline
buffer mask ends the step-by-step pipeline with the Forest-plantations code. -/
theorem mangrove_coastline_correction (I : Inputs) (r c : Int)
    (hlc : I.lc r c = dictLookup "Mangrove") (hshore : I.shore r c = 0) :
    stepwisePipeline I r c = dictLookup "Forest plantations" := by
  unfold stepwisePipeline step7_loc
  apply assign_of_true
  rw [hlc, hshore]
  simp

/-- C7: the surface value "dirt" is not in the road allow-list, and a cell all
of whose covering roads have surface "dirt" gets road-mask 0, so the
settlement-by-road rule leaves it unchanged. -/
theorem road_allowlist_excludes_dirt (roads : List Road) (I : Inputs) (r c : Int)
    (hmask : I.road r c = roadNetworkMask roads r c)
    (hdirt : ∀ rd ∈ roads, rd.covers r c = true → rd.surface = "dirt") :
    ("dirt" ∉ surface_allowlist) ∧ step5_loc I r c = step4_loc I r c := by
  refine ⟨by decide, ?_⟩
  have hmask0 : roadNetworkMask roads r c = 0 := by
    unfold roadNetworkMask selectRoads
    rw [if_neg]
    intro hany
    rcases List.any_eq_true.mp hany with ⟨rd, hmem, hcov⟩
    rcases List.mem_filter.mp hmem with ⟨hmemroads, hsurf⟩
    have hds : rd.surface = "dirt" := hdirt rd hmemroads hcov
    rw [hds] at hsurf
    exact absurd hsurf (by decide)
  unfold step5_loc
  apply assign_of_false
  rw [hmask, hmask0]
  simp

/-- C10: the flooded-vegetation and mangrove rules test only the original
pre-filter raster: a cell whose original value is not the flooded-vegetation
code (resp. Mangrove) passes Step 6 (resp. Step 7) unchanged no matter what
earlier steps wrote, while a cell with that original value inside the dilated
settlement seed (resp. outside the coastline buffer) is reclassified no matter
what earlier steps wrote. -/
theorem veg_mangrove_rules_read_original (I : Inputs) (r c : Int) :
    (I.lc r c ≠ dictLookup "Aquatic or regularly flooded herbaceous vegetation" →
      step6_loc I r c = step5_loc I r c) ∧
    (I.lc r c ≠ dictLookup "Mangrove" → step7_loc I r c = step6_loc I r c) ∧
    (urban_buffered I r c = true →
      I.lc r c = dictLookup "Aquatic or regularly flooded herbaceous vegetation" →
      step6_loc I r c = dictLookup "Field crops") ∧
    (I.shore r c = 0 → I.lc r c = dictLookup "Mangrove" →
      step7_loc I r c = dictLookup "Forest plantations") := by
  refine ⟨?_, ?_, ?_, ?_⟩
  · intro hne
    unfold step6_loc
    apply assign_of_false
    simp [hne]
  · intro hne
    unfold step7_loc
    apply assign_of_false
    simp [hne]
  · intro hurb hlc
    unfold step6_loc
    apply assign_of_true
    rw [hurb, hlc]
    simp
  · intro hshore hlc
    unfold step7_loc
    apply assign_of_true
    rw [hshore, hlc]
    simp

/-- C8: a populated (uint8) cell all of whose populated in-bounds neighbors
inside the disk-2 footprint carry the cell's own value is left unchanged by
the majority filter; in particular constant populated regions are fixed. -/
theorem mode_filter_uniform_fixed (h w : Nat) (g : RasterN) (r c : Int)
    (hr0 : 0 ≤ r) (hrh : r < (h : Int)) (hc0 : 0 ≤ c) (hcw : c < (w : Int))
    (hnz : g r c ≠ 0) (h256 : g r c < 256)
    (huni : ∀ d ∈ diskOffsets 2, inBounds h w (r + d.1) (c + d.2) = true →
      g (r + d.1) (c + d.2) ≠ 0 → g (r + d.1) (c + d.2) = g r c) :
    modal h w g r c = g r c := by
  unfold modal
  rw [if_neg hnz]
  have hin : inBounds h w r c = true := by
    unfold inBounds
    simp [hr0, hrh, hc0, hcw]
  apply leastMode_uniform _ _ hnz h256
  · unfold neighborhoodVals
    apply List.mem_filterMap.mpr
    refine ⟨(0, 0), by decide, ?_⟩
    simp only [add_zero]
    rw [if_pos]
    simp [hin, hnz]
  · intro u hu
    unfold neighborhoodVals at hu
    rcases List.mem_filterMap.mp hu with ⟨d, hd, hval⟩
    by_cases hcond :
        (inBounds h w (r + d.1) (c + d.2) && g (r + d.1) (c + d.2) != 0) = true
    · rw [if_pos hcond] at hval
      simp only [Bool.and_eq_true, bne_iff_ne, ne_eq] at hcond
      have heq := huni d hd hcond.1 hcond.2
      rw [← Option.some.inj hval]
      exact heq
    · rw [if_neg hcond] at hval
      exact absurd hval Option.noConfusion

/-- Populated cells of the filtered raster carry configured codes whenever all
populated cells of the input do. -/
theorem step1_validCell (I : Inputs)
    (hS : ∀ r2 c2, I.lc r2 c2 = 0 ∨ I.lc r2 c2 ∈ codeSet) (r c : Int) :
    validCell (step1 I r c) := by
  unfold step1 modal
  by_cases h0 : I.lc r c = 0
  · rw [if_pos h0]
    exact Or.inl rfl
  · rw [if_neg h0]
    rcases leastMode_mem_or_zero (neighborhoodVals I.h I.w I.lc r c) with h | h
    · exact Or.inl h
    · rcases neighborhoodVals_sub I.h I.w I.lc r c _ h with ⟨hnz, r2, c2, hval⟩
      rcases hS r2 c2 with h02 | hS2
      · rw [hval] at h02
        exact absurd h02 hnz
      · rw [hval] at hS2
        exact Or.inr hS2

/-- A masked assignment of a configured code preserves cell validity. -/
theorem validCell_assign (cond : Int → Int → Bool) (v : Nat) (g : RasterN)
    (hv : v ∈ codeSet) (r c : Int) (hg : validCell (g r c)) :
    validCell (assign cond v g r c) := by
  unfold assign
  by_cases hc : cond r c = true
  · rw [if_pos hc]
    exact Or.inr hv
  · rw [if_neg hc]
    exact hg

/-- C9: when every populated input cell carries a configured class code, every
populated cell of every intermediate raster and of the final output of both
the batch and the step-by-step pipelines also carries a configured code. -/
theorem closed_code_set (I : Inputs)
    (hS : ∀ r c : Int, I.lc r c = 0 ∨ I.lc r c ∈ codeSet) (r c : Int) :
    validCell (step1 I r c) ∧ validCell (step2 I r c) ∧ validCell (step3 I r c) ∧
    validCell (step4_batch I r c) ∧ validCell (step5_batch I r c) ∧
    validCell (step6_batch I r c) ∧ validCell (batchPipeline I r c) ∧
    validCell (step4_loc I r c) ∧ validCell (step5_loc I r c) ∧
    validCell (step6_loc I r c) ∧ validCell (stepwisePipeline I r c) := by
  have h1 := step1_validCell I hS r c
  have h2 : validCell (step2 I r c) := validCell_assign _ _ _ (by decide) r c h1
  have h3 : validCell (step3 I r c) := validCell_assign _ _ _ (by decide) r c h2
  have h4b : validCell (step4_batch I r c) := validCell_assign _ _ _ (by decide) r c h3
  have h5b : validCell (step5_batch I r c) := validCell_assign _ _ _ (by decide) r c h4b
  have h6b : validCell (step6_batch I r c) := validCell_assign _ _ _ (by decide) r c h5b
  have h7b : validCell (batchPipeline I r c) := by
    unfold batchPipeline step7_batch
    exact validCell_assign _ _ _ (by decide) r c h6b
  have h4 : validCell (step4_loc I r c) := validCell_assign _ _ _ (by decide) r c h3
  have h5 : validCell (step5_loc I r c) := validCell_assign _ _ _ (by decide) r c h4
  have h6 : validCell (step6_loc I r c) := validCell_assign _ _ _ (by decide) r c h5
  have h7 : validCell (stepwisePipeline I r c) := by
    unfold stepwisePipeline step7_loc
    exact validCell_assign _ _ _ (by decide) r c h6
  exact ⟨h1, h2, h3, h4b, h5b, h6b, h7b, h4, h5, h6, h7⟩

set_option maxRecDepth 8000

/-- A 1x1 input whose only cell is no-data but lies on the river mask. -/
def cI1 : Inputs where
  h := 1
  w := 1
  lc := fun _ _ => 0
  hand := fun _ _ => 0
  river := fun _ _ => 1
  mndwi := fun _ _ => -1
  build := fun _ _ => 0
  wsf := fun _ _ => 0
  road := fun _ _ => 0
  shore := fun _ _ => 1

/-- C1 counterexample: a no-data cell under the river mask is rewritten to the
Water-body code by the hydrology rule, so 0 is not preserved. -/
theorem nodata_not_preserved :
    cI1.lc 0 0 = 0 ∧ stepwisePipeline cI1 0 0 = dictLookup "Water body" ∧
    stepwisePipeline cI1 0 0 ≠ 0 := by
  refine ⟨rfl, by decide, by decide⟩

/-- C1 amended: a no-data cell is exempt from the mode filter and from the
class-guarded rule conditions, and keeps 0 through every intermediate and
output of all three code paths, provided it lies outside the river mask, the
MNDWI >= 0 region, the building mask, both WSF sentinels and the road mask. -/
theorem nodata_preserved_outside_masks (I : Inputs) (r c : Int)
    (h0 : I.lc r c = 0) (hriv : I.river r c ≠ 1) (hmn : ¬ (0 ≤ I.mndwi r c))
    (hb : I.build r c ≠ 1) (hw255 : I.wsf r c ≠ 255) (hw1 : I.wsf r c ≠ 1)
    (hrd : I.road r c ≠ 1) :
    step1 I r c = 0 ∧ step2 I r c = 0 ∧ step3 I r c = 0 ∧
    step4_loc I r c = 0 ∧ step5_loc I r c = 0 ∧ step6_loc I r c = 0 ∧
    stepwisePipeline I r c = 0 ∧
    step4_batch I r c = 0 ∧ step5_batch I r c = 0 ∧ step6_batch I r c = 0 ∧
    batchPipeline I r c = 0 ∧ districtPipeline I r c = 0 := by
  have h1 : step1 I r c = 0 := by
    unfold step1 modal
    rw [if_pos h0]
  have hhy : waterHydroCond I r c = false := by
    unfold waterHydroCond
    simp [h0, hriv, dict_water]
  have h2 : step2 I r c = 0 := by
    unfold step2
    rw [assign_of_false hhy]
    exact h1
  have hc3 : (decide (0 ≤ I.mndwi r c)) = false := by simpa using hmn
  have h3 : step3 I r c = 0 := by
    unfold step3
    rw [assign_of_false hc3]
    exact h2
  have hc4 : (decide (I.build r c = 1) || I.wsf r c == 255) = false := by
    simp [hb, hw255]
  have h4 : step4_loc I r c = 0 := by
    unfold step4_loc
    rw [assign_of_false hc4]
    exact h3
  have hc5 : (I.road r c == 1) = false := by simp [hrd]
  have h5 : step5_loc I r c = 0 := by
    unfold step5_loc
    rw [assign_of_false hc5]
    exact h4
  have hc6 : (urban_buffered I r c &&
      (I.lc r c == dictLookup "Aquatic or regularly flooded herbaceous vegetation")) = false := by
    simp [h0, dict_flooded]
  have h6 : step6_loc I r c = 0 := by
    unfold step6_loc
    rw [assign_of_false hc6]
    exact h5
  have hc7 : ((I.shore r c == 0) && (I.lc r c == dictLookup "Mangrove")) = false := by
    simp [h0, dict_mangrove]
  have h7 : stepwisePipeline I r c = 0 := by
    unfold stepwisePipeline step7_loc
    rw [assign_of_false hc7]
    exact h6
  have hc4b : (decide (I.build r c = 1) || I.wsf r c == 1) = false := by
    simp [hb, hw1]
  have h4b : step4_batch I r c = 0 := by
    unfold step4_batch
    rw [assign_of_false hc4b]
    exact h3
  have h5b : step5_batch I r c = 0 := by
    unfold step5_batch
    rw [assign_of_false hc6]
    exact h4b
  have h6b : step6_batch I r c = 0 := by
    unfold step6_batch
    rw [assign_of_false hc5]
    exact h5b
  have h7b : batchPipeline I r c = 0 := by
    unfold batchPipeline step7_batch
    rw [assign_of_false hc7]
    exact h6b
  have h7d : districtPipeline I r c = 0 := h7b
  exact ⟨h1, h2, h3, h4, h5, h6, h7, h4b, h5b, h6b, h7b, h7d⟩

/-- A 1x1 input whose only cell is no-data and lies on none of the masks. -/
def cW1 : Inputs where
  h := 1
  w := 1
  lc := fun _ _ => 0
  hand := fun _ _ => 0
  river := fun _ _ => 0
  mndwi := fun _ _ => -1
  build := fun _ _ => 0
  wsf := fun _ _ => 0
  road := fun _ _ => 0
  shore := fun _ _ => 1

theorem nodata_preserved_witness :
    cW1.lc 0 0 = 0 ∧ cW1.river 0 0 ≠ 1 ∧ ¬ (0 ≤ cW1.mndwi 0 0) ∧
    cW1.build 0 0 ≠ 1 ∧ cW1.wsf 0 0 ≠ 255 ∧ cW1.wsf 0 0 ≠ 1 ∧ cW1.road 0 0 ≠ 1 ∧
    (step1 cW1 0 0 = 0 ∧ step2 cW1 0 0 = 0 ∧ step3 cW1 0 0 = 0 ∧
     step4_loc cW1 0 0 = 0 ∧ step5_loc cW1 0 0 = 0 ∧ step6_loc cW1 0 0 = 0 ∧
     stepwisePipeline cW1 0 0 = 0 ∧
     step4_batch cW1 0 0 = 0 ∧ step5_batch cW1 0 0 = 0 ∧ step6_batch cW1 0 0 = 0 ∧
     batchPipeline cW1 0 0 = 0 ∧ districtPipeline cW1 0 0 = 0) :=
  ⟨rfl, by decide, by decide, by decide, by decide, by decide, by decide,
   nodata_preserved_outside_masks cW1 0 0 rfl (by decide) (by decide) (by decide)
     (by decide) (by decide) (by decide)⟩

/-- A 1x1 input whose only cell ends Step 3 as Water-body but lies on the road
mask. -/
def cI2 : Inputs where
  h := 1
  w := 1
  lc := fun _ _ => 44
  hand := fun _ _ => 40
  river := fun _ _ => 0
  mndwi := fun _ _ => -1
  build := fun _ _ => 0
  wsf := fun _ _ => 0
  road := fun _ _ => 1
  shore := fun _ _ => 1

/-- C2 counterexample: a cell that is Water-body at the end of Step 3 is
reassigned to Settlements by the road rule, whose condition never inspects the
class value. -/
theorem water_not_persistent :
    step3 cI2 0 0 = dictLookup "Water body" ∧
    stepwisePipeline cI2 0 0 = dictLookup "Settlements" ∧
    stepwisePipeline cI2 0 0 ≠ dictLookup "Water body" := by
  refine ⟨by decide, by decide, by decide⟩

/-- C2 amended: a cell that ends Step 3 as Water-body stays Water-body through
Steps 4-7 provided it lies outside the building mask, the WSF sentinel and the
road mask and its original value triggers neither the flooded-vegetation nor
the mangrove condition; the settlement rules can reassign it otherwise. -/
theorem water_persists_outside_masks (I : Inputs) (r c : Int)
    (h3 : step3 I r c = dictLookup "Water body")
    (hb : I.build r c ≠ 1) (hw : I.wsf r c ≠ 255) (hrd : I.road r c ≠ 1)
    (hveg : ¬ (urban_buffered I r c = true ∧
      I.lc r c = dictLookup "Aquatic or regularly flooded herbaceous vegetation"))
    (hman : ¬ (I.shore r c = 0 ∧ I.lc r c = dictLookup "Mangrove")) :
    step4_loc I r c = dictLookup "Water body" ∧
    step5_loc I r c = dictLookup "Water body" ∧
    step6_loc I r c = dictLookup "Water body" ∧
    stepwisePipeline I r c = dictLookup "Water body" := by
  have hc4 : (decide (I.build r c = 1) || I.wsf r c == 255) = false := by
    simp [hb, hw]
  have h4 : step4_loc I r c = dictLookup "Water body" := by
    unfold step4_loc
    rw [assign_of_false hc4]
    exact h3
  have hc5 : (I.road r c == 1) = false := by simp [hrd]
  have h5 : step5_loc I r c = dictLookup "Water body" := by
    unfold step5_loc
    rw [assign_of_false hc5]
    exact h4
  have hc6 : (urban_buffered I r c &&
      (I.lc r c == dictLookup "Aquatic or regularly flooded herbaceous vegetation")) = false := by
    by_cases hu : urban_buffered I r c = true
    · have hlc : I.lc r c ≠ dictLookup "Aquatic or regularly flooded herbaceous vegetation" :=
        fun hl => hveg ⟨hu, hl⟩
      simp [hlc]
    · have hu0 : urban_buffered I r c = false := by
        revert hu
        cases urban_buffered I r c <;> simp
      simp [hu0]
  have h6 : step6_loc I r c = dictLookup "Water body" := by
    unfold step6_loc
    rw [assign_of_false hc6]
    exact h5
  have hc7 : ((I.shore r c == 0) && (I.lc r c == dictLookup "Mangrove")) = false := by
    by_cases hs : I.shore r c = 0
    · have hlc : I.lc r c ≠ dictLookup "Mangrove" := fun hl => hman ⟨hs, hl⟩
      simp [hlc]
    · simp [hs]
  have h7 : stepwisePipeline I r c = dictLookup "Water body" := by
    unfold stepwisePipeline step7_loc
    rw [assign_of_false hc7]
    exact h6
  exact ⟨h4, h5, h6, h7⟩

/-- A 1x1 input whose only cell ends Step 3 as Water-body and lies on no later
mask. -/
def cW2 : Inputs where
  h := 1
  w := 1
  lc := fun _ _ => 44
  hand := fun _ _ => 40
  river := fun _ _ => 0
  mndwi := fun _ _ => -1
  build := fun _ _ => 0
  wsf := fun _ _ => 0
  road := fun _ _ => 0
  shore := fun _ _ => 1

theorem water_persists_witness :
    step3 cW2 0 0 = dictLookup "Water body" ∧ cW2.build 0 0 ≠ 1 ∧
    cW2.wsf 0 0 ≠ 255 ∧ cW2.road 0 0 ≠ 1 ∧
    ¬ (urban_buffered cW2 0 0 = true ∧
      cW2.lc 0 0 = dictLookup "Aquatic or regularly flooded herbaceous vegetation") ∧
    ¬ (cW2.shore 0 0 = 0 ∧ cW2.lc 0 0 = dictLookup "Mangrove") ∧
    (step4_loc cW2 0 0 = dictLookup "Water body" ∧
     step5_loc cW2 0 0 = dictLookup "Water body" ∧
     step6_loc cW2 0 0 = dictLookup "Water body" ∧
     stepwisePipeline cW2 0 0 = dictLookup "Water body") :=
  ⟨by decide, by decide, by decide, by decide, by decide, by decide,
   water_persists_outside_masks cW2 0 0 (by decide) (by decide) (by decide)
     (by decide) (by decide) (by decide)⟩

/-- A 6x1 input with a settlement seed at the top, flooded-vegetation below,
and the road mask everywhere: the step-by-step order (road, then
flooded-vegetation) and the batch order (flooded-vegetation, then road)
disagree at the bottom cell. -/
def cI3 : Inputs where
  h := 6
  w := 1
  lc := fun r _ => if r = 0 then 51 else 41
  hand := fun _ _ => 100
  river := fun _ _ => 0
  mndwi := fun _ _ => -1
  build := fun _ _ => 0
  wsf := fun _ _ => 0
  road := fun _ _ => 1
  shore := fun _ _ => 1

/-- C3 counterexample: the step-by-step cells and the process-all-locations
loop compute different rasters on the same input. -/
theorem pipelines_differ :
    stepwisePipeline cI3 5 0 = dictLookup "Field crops" ∧
    batchPipeline cI3 5 0 = dictLookup "Settlements" ∧
    stepwisePipeline cI3 5 0 ≠ batchPipeline cI3 5 0 := by
  refine ⟨by decide, by decide, by decide⟩

/-- C3 amended: the notebook-4 batch loop and the notebook-5 district cell
apply identical rules in identical order (WSF sentinel 1, flooded-vegetation
before road) and agree on every input; the step-by-step cells instead use WSF
sentinel 255 and apply road before flooded-vegetation, and can disagree. -/
theorem batch_equals_district (I : Inputs) (r c : Int) :
    districtPipeline I r c = batchPipeline I r c := rfl

theorem swap67_agrees_aux (I : Inputs) (r c : Int) :
    swappedPipeline I r c = stepwisePipeline I r c := by
  unfold swappedPipeline stepwisePipeline step7_swap step6_swap step7_loc step6_loc
  simp only [assign]
  by_cases h6 : (urban_buffered I r c &&
      (I.lc r c == dictLookup "Aquatic or regularly flooded herbaceous vegetation")) = true
  all_goals by_cases h7 : ((I.shore r c == 0) && (I.lc r c == dictLookup "Mangrove")) = true
  · exfalso
    simp only [Bool.and_eq_true, beq_iff_eq] at h6 h7
    have h70 := h7.2
    rw [h6.2] at h70
    exact absurd h70 (by decide)
  · simp [h6, h7]
  · simp [h6, h7]
  · simp [h6, h7]

/-- C4 counterexample: no input at all - in particular no fixture with a
flooded-vegetation cell near settlement and outside the coastline buffer -
makes the swapped order differ from the fixed order. -/
theorem swap67_no_fixture :
    ¬ ∃ I : Inputs, ∃ r c : Int, swappedPipeline I r c ≠ stepwisePipeline I r c := by
  rintro ⟨I, r, c, hne⟩
  exact hne (swap67_agrees_aux I r c)

/-- C4 amended: Steps 6 and 7 commute on every input: both rules test only the
original raster, on the distinct class codes 41 and 70, so their write sets are
disjoint and swapping them never changes any output cell. -/
theorem swap67_commutes (I : Inputs) (r c : Int) :
    swappedPipeline I r c = stepwisePipeline I r c :=
  swap67_agrees_aux I r c

/-- A 1x1 input realizing the C5 scenario: original Water-body, hand 50,
river-mask 0, MNDWI 0.3. -/
def cW5 : Inputs where
  h := 1
  w := 1
  lc := fun _ _ => 44
  hand := fun _ _ => 50
  river := fun _ _ => 0
  mndwi := fun _ _ => mkRat 3 10
  build := fun _ _ => 0
  wsf := fun _ _ => 0
  road := fun _ _ => 0
  shore := fun _ _ => 1

theorem water_rules_witness :
    cW5.lc 0 0 = dictLookup "Water body" ∧ cW5.hand 0 0 = 50 ∧ cW5.river 0 0 = 0 ∧
    0 ≤ cW5.mndwi 0 0 ∧ step2 cW5 0 0 = step1 cW5 0 0 ∧
    step3 cW5 0 0 = dictLookup "Water body" :=
  ⟨by decide, rfl, rfl, by decide,
   ((water_rules_characterization cW5 0 0).2.2.2 (by decide) rfl rfl).1,
   ((water_rules_characterization cW5 0 0).2.2.2 (by decide) rfl rfl).2 (by decide)⟩

/-- A 5x5 input whose single Mangrove cell lies outside the coastline buffer
mask everywhere. -/
def cW6 : Inputs where
  h := 5
  w := 5
  lc := fun r c => if r = 2 ∧ c = 2 then 70 else 31
  hand := fun _ _ => 100
  river := fun _ _ => 0
  mndwi := fun _ _ => -1
  build := fun _ _ => 0
  wsf := fun _ _ => 0
  road := fun _ _ => 0
  shore := fun _ _ => 0

theorem mangrove_coastline_witness :
    cW6.lc 2 2 = dictLookup "Mangrove" ∧ cW6.shore 2 2 = 0 ∧
    stepwisePipeline cW6 2 2 = dictLookup "Forest plantations" :=
  ⟨by decide, rfl, mangrove_coastline_correction cW6 2 2 (by decide) rfl⟩

/-- A road whose surface attribute is "dirt" and whose rasterized 10 m buffer
covers every cell. -/
def dirtRoad : Road where
  surface := "dirt"
  covers := fun _ _ => true

/-- A 1x1 input whose road mask is rasterized from the single dirt road. -/
def cW7 : Inputs where
  h := 1
  w := 1
  lc := fun _ _ => 31
  hand := fun _ _ => 100
  river := fun _ _ => 0
  mndwi := fun _ _ => -1
  build := fun _ _ => 0
  wsf := fun _ _ => 0
  road := roadNetworkMask [dirtRoad]
  shore := fun _ _ => 1

theorem road_allowlist_witness :
    cW7.road 0 0 = roadNetworkMask [dirtRoad] 0 0 ∧
    (∀ rd ∈ [dirtRoad], rd.covers 0 0 = true → rd.surface = "dirt") ∧
    (("dirt" ∉ surface_allowlist) ∧ step5_loc cW7 0 0 = step4_loc cW7 0 0) :=
  ⟨rfl, by decide, road_allowlist_excludes_dirt [dirtRoad] cW7 0 0 rfl (by decide)⟩

/-- A constant populated 3x3 raster. -/
def uniGrid : RasterN := fun _ _ => 12

theorem mode_filter_uniform_witness :
    (0 ≤ (1 : Int)) ∧ ((1 : Int) < ((3 : Nat) : Int)) ∧
    uniGrid 1 1 ≠ 0 ∧ uniGrid 1 1 < 256 ∧
    (∀ d ∈ diskOffsets 2, inBounds 3 3 (1 + d.1) (1 + d.2) = true →
      uniGrid (1 + d.1) (1 + d.2) ≠ 0 → uniGrid (1 + d.1) (1 + d.2) = uniGrid 1 1) ∧
    modal 3 3 uniGrid 1 1 = uniGrid 1 1 :=
  ⟨by decide, by decide, by decide, by decide, by decide,
   mode_filter_uniform_fixed 3 3 uniGrid 1 1 (by decide) (by decide) (by decide)
     (by decide) (by decide) (by decide) (by decide)⟩

/-- A 1x1 input all of whose populated cells carry configured codes. -/
def cW9 : Inputs where
  h := 1
  w := 1
  lc := fun _ _ => 12
  hand := fun _ _ => 100
  river := fun _ _ => 0
  mndwi := fun _ _ => -1
  build := fun _ _ => 0
  wsf := fun _ _ => 0
  road := fun _ _ => 0
  shore := fun _ _ => 1

theorem closed_code_set_witness :
    (∀ r c : Int, cW9.lc r c = 0 ∨ cW9.lc r c ∈ codeSet) ∧
    (validCell (step1 cW9 0 0) ∧ validCell (step2 cW9 0 0) ∧ validCell (step3 cW9 0 0) ∧
     validCell (step4_batch cW9 0 0) ∧ validCell (step5_batch cW9 0 0) ∧
     validCell (step6_batch cW9 0 0) ∧ validCell (batchPipeline cW9 0 0) ∧
     validCell (step4_loc cW9 0 0) ∧ validCell (step5_loc cW9 0 0) ∧
     validCell (step6_loc cW9 0 0) ∧ validCell (stepwisePipeline cW9 0 0)) :=
  ⟨fun r c => Or.inr (show (12 : Nat) ∈ codeSet by decide),
   closed_code_set cW9 (fun r c => Or.inr (show (12 : Nat) ∈ codeSet by decide)) 0 0⟩

/-- A 1x4 input with a Grassland cell, a flooded-vegetation cell near the
Settlements seed, a Mangrove cell outside the coastline buffer, and the seed. -/
def cW10 : Inputs where
  h := 1
  w := 4
  lc := fun _ c => if c = 1 then 41 else if c = 2 then 70 else if c = 3 then 51 else 31
  hand := fun _ _ => 100
  river := fun _ _ => 0
  mndwi := fun _ _ => -1
  build := fun _ _ => 0
  wsf := fun _ _ => 0
  road := fun _ _ => 0
  shore := fun _ _ => 0

theorem rules_read_original_witness :
    cW10.lc 0 0 ≠ dictLookup "Aquatic or regularly flooded herbaceous vegetation" ∧
    step6_loc cW10 0 0 = step5_loc cW10 0 0 ∧
    cW10.lc 0 0 ≠ dictLookup "Mangrove" ∧
    step7_loc cW10 0 0 = step6_loc cW10 0 0 ∧
    urban_buffered cW10 0 1 = true ∧
    cW10.lc 0 1 = dictLookup "Aquatic or regularly flooded herbaceous vegetation" ∧
    step6_loc cW10 0 1 = dictLookup "Field crops" ∧
    cW10.shore 0 2 = 0 ∧ cW10.lc 0 2 = dictLookup "Mangrove" ∧
    step7_loc cW10 0 2 = dictLookup "Forest plantations" :=
  ⟨by decide, (veg_mangrove_rules_read_original cW10 0 0).1 (by decide),
   by decide, (veg_mangrove_rules_read_original cW10 0 0).2.1 (by decide),
   by decide, by decide,
   (veg_mangrove_rules_read_original cW10 0 1).2.2.1 (by decide) (by decide),
   rfl, by decide,
   (veg_mangrove_rules_read_original cW10 0 2).2.2.2 rfl (by decide)⟩

end LC

